import Mathlib

set_option autoImplicit false

/-!
Verification of the path-resolution and tree-mirroring engine of the
`osfclient` command-line interface (`cli.py`).

Paths and messages are modelled as lists of characters (`Path := List Char`).
The platform is posix, so `os.sep = '/'`.  Filesystem and network effects are
modelled as explicit action traces; fallible code returns `Except` or carries
an explicit error field.  Helper functions from `utils.py` (absent from the
sources) are modelled from the spec where noted.
-/

namespace Osf

/-- Strings from the Python source, modelled as lists of characters. -/
abbrev Path := List Char

/-- Conversion from a Lean string literal to a modelled path. -/
def str (s : String) : Path := s.data

/-- The platform separator `os.sep`; the platform is posix. -/
def osSep : Char := '/'

/-- Python `s.replace(os.sep, '/')` for the single-character posix separator:
replace every occurrence of `os.sep` by `'/'`. -/
def replaceSep (p : Path) : Path := p.map (fun c => if c = osSep then '/' else c)

/-- Python `s.startswith('/')`. -/
def startsWithSlash : Path → Bool
  | [] => false
  | c :: _ => c = '/'

/-- Python `s.endswith('/')`. -/
def endsWithSlash (p : Path) : Bool := startsWithSlash p.reverse

/-- The idiom `if path.startswith('/'): path = path[1:]` used at
cli.py lines 160-161, 231-232 and 281-282: strip exactly one leading `'/'`. -/
def stripOneLeading (p : Path) : Path := if startsWithSlash p then p.drop 1 else p

/-- Modelled from the spec: `utils.norm_remote_path` (utils.py is not among the
sources).  Spec 4.1: "replaces all platform separators with `/`; if the result
starts with `/`, removes exactly one leading `/`".  This is also exactly the
inline normalization of cli.py lines 158-161. -/
def norm_remote_path (p : Path) : Path := stripOneLeading (replaceSep p)

/-- `posixpath.join` for two components, as performed by `os.path.join` on the
posix platform: an absolute second component discards the first; otherwise the
components are glued, inserting `'/'` unless the first is empty or already ends
in `'/'`. -/
def posixJoin (a b : Path) : Path :=
  if startsWithSlash b then b
  else if a = [] ∨ endsWithSlash a = true then a ++ b
  else a ++ '/' :: b

/-- `os.path.join(a, b, c, ...)` folds the two-component rule from the left. -/
def posixJoins (a : Path) (rest : List Path) : Path := rest.foldl posixJoin a

/-- `posixpath.split`: the tail is everything after the last `'/'`; the head is
everything up to and including the last `'/'`, with trailing slashes removed
unless the head consists of slashes only. -/
def pySplit (p : Path) : Path × Path :=
  let tail := (p.reverse.takeWhile (fun c => c ≠ '/')).reverse
  let head := p.take (p.length - tail.length)
  let head' :=
    if head ≠ [] ∧ head.any (fun c => c ≠ '/') then
      (head.reverse.dropWhile (fun c => c = '/')).reverse
    else head
  (head', tail)

/-- Boolean prefix test: `leadsWith pre l` holds when `pre` is an initial
segment of `l`. -/
def leadsWith : Path → Path → Bool
  | [], _ => true
  | _ :: _, [] => false
  | c :: cs, d :: ds => c = d && leadsWith cs ds

/-! ### Basic lemmas about the path primitives -/

/-- On posix, replacing `os.sep` by `'/'` is the identity. -/
@[simp] theorem replaceSep_eq (p : Path) : replaceSep p = p := by
  unfold replaceSep osSep
  induction p with
  | nil => rfl
  | cons c cs ih =>
      simp only [List.map_cons, ih]
      by_cases h : c = '/' <;> simp [h]

theorem stripOneLeading_of_not_slash {p : Path} (h : startsWithSlash p = false) :
    stripOneLeading p = p := by
  unfold stripOneLeading
  simp [h]

theorem startsWithSlash_append {x : Path} (y : Path) (h : x ≠ []) :
    startsWithSlash (x ++ y) = startsWithSlash x := by
  cases x with
  | nil => exact absurd rfl h
  | cons c cs => rfl

theorem endsWithSlash_append_cons (root name : Path) (h : name ≠ []) :
    endsWithSlash (root ++ '/' :: name) = endsWithSlash name := by
  unfold endsWithSlash
  rw [List.reverse_append, List.reverse_cons]
  rw [List.append_assoc]
  rw [startsWithSlash_append (['/'] ++ root.reverse)]
  simpa using h

theorem posixJoin_sep (a b : Path) (ha : a ≠ []) (ha2 : endsWithSlash a = false)
    (hb : startsWithSlash b = false) : posixJoin a b = a ++ '/' :: b := by
  unfold posixJoin
  simp [hb, ha, ha2]

/-! ### Claim C5 : idempotence of normalization -/

/-- The map underlying `replaceSep` is idempotent characterwise, hence
`replaceSep` commutes with itself and with `List.drop`. -/
theorem replaceSep_stripOneLeading (p : Path) :
    replaceSep (stripOneLeading p) = stripOneLeading (replaceSep p) := by
  simp

/-- Claim C5 (counterexample): normalization is NOT idempotent.  On the path
`"//a"` one pass strips a single leading slash giving `"/a"`, and a second pass
strips another, giving `"a"`. -/
theorem norm_remote_path_not_idempotent :
    norm_remote_path (norm_remote_path (str "//a")) ≠ norm_remote_path (str "//a") := by
  decide

/-- Claim C5 (amended): normalization is idempotent on every path whose
normalized form does not itself start with `'/'` — equivalently, on every path
with at most one leading separator.  (The source strips exactly one leading
`'/'` per pass, so a path beginning with two separators normalizes differently
on the second pass.) -/
theorem norm_remote_path_idempotent_of_single_leading (p : Path)
    (h : startsWithSlash (norm_remote_path p) = false) :
    norm_remote_path (norm_remote_path p) = norm_remote_path p := by
  unfold norm_remote_path at h ⊢
  simp only [replaceSep_eq] at h ⊢
  exact stripOneLeading_of_not_slash h

/-- Witness for the amended claim C5 at the concrete path `"/a"`. -/
theorem norm_remote_path_idempotent_witness :
    startsWithSlash (norm_remote_path (str "/a")) = false ∧
      norm_remote_path (norm_remote_path (str "/a")) = norm_remote_path (str "/a") :=
  ⟨by decide, norm_remote_path_idempotent_of_single_leading (str "/a") (by decide)⟩

/-! ### The remote data model and the clone operation (cli.py lines 139-172) -/

/-- A remote file as seen through the listing of a storage provider: only its
remote path matters to the mirroring engine. -/
structure RemoteFile where
  path : Path
deriving DecidableEq

/-- A storage provider of a project: its name and its file listing. -/
structure Storage where
  name : Path
  files : List RemoteFile
deriving DecidableEq

/-- Local filesystem effects performed by `clone` and `fetch`, in order.
`makedirs` is the recursive, idempotent `utils.makedirs(..., exist_ok=True)`
(modelled from the spec: utils.py is not among the sources); `write` is
`open(path, "wb")` followed by `file_.write_to(f)`. -/
inductive FsAction
  | makedirs (dir : Path)
  | write (file : Path)
deriving DecidableEq

/-- cli.py lines 149-151: the output directory defaults to the project id and
is overridden by an explicit output argument. -/
def clone_output_dir (project : Path) (output : Option Path) : Path :=
  match output with
  | none => project
  | some o => o

/-- cli.py lines 155-156: `prefix = os.path.join(output_dir, store.name)`
followed by `prefix.replace(os.sep, '/')`. -/
def clone_provider_dir (output_dir name : Path) : Path :=
  replaceSep (posixJoin output_dir name)

/-- cli.py lines 158-164: normalize the remote file path, strip one leading
slash, join it under the provider directory, replace separators again. -/
def clone_dest (provider_dir fpath : Path) : Path :=
  replaceSep (posixJoin provider_dir (stripOneLeading (replaceSep fpath)))

/-- cli.py lines 165-170: split off the directory of the destination, create it
recursively, then open the destination and stream the remote file into it. -/
def clone_file_actions (provider_dir fpath : Path) : List FsAction :=
  let path := clone_dest provider_dir fpath
  let directory := replaceSep (pySplit path).1
  [FsAction.makedirs directory, FsAction.write path]

/-- cli.py lines 153-172: the full local-filesystem trace of `clone`, provider
by provider, file by file, in listing order. -/
def clone_actions (output_dir : Path) (stores : List Storage) : List FsAction :=
  stores.flatMap fun st =>
    st.files.flatMap fun f => clone_file_actions (clone_provider_dir output_dir st.name) f.path

/-- Translated from the spec's words for claim C1, to be compared with the
code's destination: "destination = `localRoot/providerName/<remote path with
leading slash stripped>`" — the three parts glued with `'/'`, the remote path
having its platform separators replaced and one leading `'/'` stripped. -/
def spec_clone_dest (root name fpath : Path) : Path :=
  root ++ '/' :: name ++ '/' :: stripOneLeading (replaceSep fpath)

/-! ### Claim C1 -/

/-- Claim C1 (counterexample): a remote file whose path starts with two
separators is NOT written under `localRoot/providerName/...`.  After stripping
a single leading `'/'` the path is still absolute, so `os.path.join` discards
the prefix entirely: the file `"//x.txt"` of provider `"osfstorage"` is written
to the filesystem root `"/x.txt"`, not to the spec's destination
`"out/osfstorage//x.txt"`. -/
theorem clone_dest_not_spec_join :
    clone_actions (str "out") [⟨str "osfstorage", [⟨str "//x.txt"⟩]⟩]
        = [FsAction.makedirs (str "/"), FsAction.write (str "/x.txt")]
      ∧ spec_clone_dest (str "out") (str "osfstorage") (str "//x.txt")
          = str "out/osfstorage//x.txt"
      ∧ (str "/x.txt" : Path) ≠ str "out/osfstorage//x.txt" := by
  decide

/-- Decomposition of the clone trace at one file of one provider. -/
theorem clone_actions_decomp (root : Path) (stores : List Storage)
    (st : Storage) (f : RemoteFile) (hst : st ∈ stores) (hf : f ∈ st.files) :
    ∃ pre post,
      clone_actions root stores
        = pre ++ clone_file_actions (clone_provider_dir root st.name) f.path ++ post := by
  obtain ⟨s₁, s₂, rfl⟩ := List.append_of_mem hst
  obtain ⟨t₁, t₂, hfe⟩ := List.append_of_mem hf
  unfold clone_actions
  simp only [List.flatMap_append, List.flatMap_cons, hfe]
  refine ⟨(s₁.flatMap fun st => st.files.flatMap fun f =>
        clone_file_actions (clone_provider_dir root st.name) f.path)
      ++ t₁.flatMap (fun f => clone_file_actions (clone_provider_dir root st.name) f.path),
    t₂.flatMap (fun f => clone_file_actions (clone_provider_dir root st.name) f.path)
      ++ s₂.flatMap (fun st => st.files.flatMap fun f =>
          clone_file_actions (clone_provider_dir root st.name) f.path), ?_⟩
  simp [List.append_assoc]

/-- Under the side conditions of the amended claim C1, the code's destination
agrees with the spec's concatenation. -/
theorem clone_dest_eq_spec (root name fpath : Path)
    (h1 : root ≠ []) (h2 : endsWithSlash root = false)
    (h3 : name ≠ []) (h4 : startsWithSlash name = false) (h5 : endsWithSlash name = false)
    (h6 : startsWithSlash (stripOneLeading (replaceSep fpath)) = false) :
    clone_dest (clone_provider_dir root name) fpath = spec_clone_dest root name fpath := by
  unfold clone_dest clone_provider_dir spec_clone_dest
  rw [replaceSep_eq, replaceSep_eq]
  rw [posixJoin_sep root name h1 h2 h4]
  rw [posixJoin_sep _ _ (by simp) (by rw [endsWithSlash_append_cons root name h3]; exact h5) h6]

/-- Claim C1 (amended): for every storage provider of the project and every
remote file in it, clone creates the destination's directory chain and then
writes the file at `localRoot/providerName/<remote path with separators
replaced and a single leading '/' stripped>` — PROVIDED the output root is
nonempty and does not end in `'/'`, the provider name is nonempty and neither
starts nor ends with `'/'`, and the stripped remote path does not start with
`'/'` (i.e. the remote path has at most one leading separator).  Outside these
conditions `os.path.join` can discard the root (see the counterexample). -/
theorem clone_mirrors_under_provider_dir (root : Path) (stores : List Storage)
    (st : Storage) (f : RemoteFile) (hst : st ∈ stores) (hf : f ∈ st.files)
    (h1 : root ≠ []) (h2 : endsWithSlash root = false)
    (h3 : st.name ≠ []) (h4 : startsWithSlash st.name = false)
    (h5 : endsWithSlash st.name = false)
    (h6 : startsWithSlash (stripOneLeading (replaceSep f.path)) = false) :
    ∃ pre post,
      clone_actions root stores
        = pre
          ++ FsAction.makedirs (replaceSep (pySplit (spec_clone_dest root st.name f.path)).1)
          :: FsAction.write (spec_clone_dest root st.name f.path)
          :: post := by
  obtain ⟨pre, post, hdec⟩ := clone_actions_decomp root stores st f hst hf
  refine ⟨pre, post, ?_⟩
  rw [hdec]
  unfold clone_file_actions
  rw [clone_dest_eq_spec root st.name f.path h1 h2 h3 h4 h5 h6]
  simp

/-- Witness for the amended claim C1 at a concrete project with one provider
and one remote file. -/
theorem clone_mirrors_under_provider_dir_witness :
    ∃ pre post,
      clone_actions (str "out") [⟨str "osfstorage", [⟨str "/x.txt"⟩]⟩]
        = pre
          ++ FsAction.makedirs
              (replaceSep (pySplit (spec_clone_dest (str "out") (str "osfstorage") (str "/x.txt"))).1)
          :: FsAction.write (spec_clone_dest (str "out") (str "osfstorage") (str "/x.txt"))
          :: post :=
  clone_mirrors_under_provider_dir (str "out") [⟨str "osfstorage", [⟨str "/x.txt"⟩]⟩]
    ⟨str "osfstorage", [⟨str "/x.txt"⟩]⟩ ⟨str "/x.txt"⟩
    (by decide) (by decide) (by decide) (by decide) (by decide) (by decide) (by decide)
    (by decide)

/-! ### Claim C10 : the default output root of clone -/

theorem leadsWith_append_self (p r : Path) : leadsWith p (p ++ r) = true := by
  induction p with
  | nil => rfl
  | cons c cs ih => simp [leadsWith, ih]

/-- Joining a component that does not start with `'/'` always extends the
first component (no branch of `posixpath.join` discards it). -/
theorem posixJoin_extends (a b : Path) (hb : startsWithSlash b = false) :
    ∃ x, posixJoin a b = a ++ x := by
  unfold posixJoin
  rw [hb]
  by_cases h : a = [] ∨ endsWithSlash a = true
  · exact ⟨b, by simp [h]⟩
  · exact ⟨'/' :: b, by simp [h]⟩

/-- Claim C10 (counterexample): with the output argument absent the root is the
project id, but NOT every mirrored file lands under the project-id directory.
A remote file `"//x.txt"` is written to the filesystem root `"/x.txt"`, which
does not lie under `"proj/"`. -/
theorem clone_default_output_escape :
    clone_output_dir (str "proj") none = str "proj"
    ∧ clone_actions (clone_output_dir (str "proj") none) [⟨str "osfstorage", [⟨str "//x.txt"⟩]⟩]
        = [FsAction.makedirs (str "/"), FsAction.write (str "/x.txt")]
    ∧ leadsWith (str "proj" ++ ['/']) (str "/x.txt") = false := by
  decide

/-- Claim C10 (amended): when the output argument is absent, the local
destination root equals the project identifier string, and every mirrored file
is placed under the project-id directory PROVIDED the project id is nonempty
and does not end in `'/'`, no provider name starts with `'/'`, and no stripped
remote path starts with `'/'` (at most one leading separator per remote
path). -/
theorem clone_default_output_under_project_dir (project : Path) (stores : List Storage)
    (h1 : project ≠ []) (h2 : endsWithSlash project = false)
    (hall : ∀ st ∈ stores, startsWithSlash st.name = false ∧
        ∀ f ∈ st.files, startsWithSlash (stripOneLeading (replaceSep f.path)) = false) :
    clone_output_dir project none = project ∧
    ∀ q, FsAction.write q ∈ clone_actions (clone_output_dir project none) stores →
      leadsWith (project ++ ['/']) q = true := by
  refine ⟨rfl, ?_⟩
  intro q hq
  have hq' : FsAction.write q ∈ clone_actions project stores := hq
  unfold clone_actions at hq'
  rw [List.mem_flatMap] at hq'
  obtain ⟨st, hst, hq'⟩ := hq'
  rw [List.mem_flatMap] at hq'
  obtain ⟨f, hf, hq'⟩ := hq'
  obtain ⟨hn, hfp⟩ := hall st hst
  have hfp := hfp f hf
  unfold clone_file_actions at hq'
  simp only [List.mem_cons, List.not_mem_nil, or_false, reduceCtorEq, false_or,
    FsAction.write.injEq] at hq'
  subst hq'
  unfold clone_dest clone_provider_dir
  rw [replaceSep_eq, replaceSep_eq]
  rw [posixJoin_sep project st.name h1 h2 hn]
  obtain ⟨x, hx⟩ := posixJoin_extends (project ++ '/' :: st.name) _ hfp
  rw [hx]
  have hassoc : project ++ '/' :: st.name ++ x = (project ++ ['/']) ++ (st.name ++ x) := by
    simp
  rw [hassoc]
  exact leadsWith_append_self (project ++ ['/']) (st.name ++ x)

/-- Witness for the amended claim C10 at a concrete project. -/
theorem clone_default_output_under_project_dir_witness :
    clone_output_dir (str "proj") none = str "proj" ∧
    ∀ q, FsAction.write q ∈ clone_actions (clone_output_dir (str "proj") none)
        [⟨str "osfstorage", [⟨str "/x.txt"⟩]⟩] →
      leadsWith (str "proj" ++ ['/']) q = true :=
  clone_default_output_under_project_dir (str "proj") [⟨str "osfstorage", [⟨str "/x.txt"⟩]⟩]
    (by decide) (by decide) (by decide)

/-! ### The fetch operation (cli.py lines 175-213) and the remove loop
(cli.py lines 300-320) -/

/-- Python exceptions surfaced by the embedded fragments. -/
inductive PyErr
  /-- `AttributeError`: `local_path.replace(os.sep, '/')` with `local_path = None`
  (cli.py line 190). -/
  | attributeErrorNoneReplace
deriving DecidableEq

/-- cli.py line 190: `local_path = local_path.replace(os.sep, '/')` applied to
the optional CLI argument; raises `AttributeError` when the value is `None`. -/
def pyReplaceSepOpt : Option Path → Except PyErr (Option Path)
  | none => Except.error PyErr.attributeErrorNoneReplace
  | some p => Except.ok (some (replaceSep p))

/-- cli.py lines 189-193: resolve the local destination path of `fetch`.  The
`Except.ok none` branch is the source's `if local_path is None:` default to the
remote file's base name (lines 191-193); it is kept in the translation exactly
where the source has it, after the separator replacement of line 190. -/
def fetch_resolve_local (localArg : Option Path) (remote_path : Path) : Except PyErr Path :=
  match pyReplaceSepOpt localArg with
  | Except.error e => Except.error e
  | Except.ok none => Except.ok (replaceSep (pySplit remote_path).2)
  | Except.ok (some local_path) => Except.ok local_path

/-- Local filesystem effects of `fetch`: recursive directory creation and one
`open(local_path, 'wb')` + `file_.write_to(fp)` per transferred file; the
write records which remote file was streamed. -/
inductive FetchAction
  | makedirs (dir : Path)
  | write (localPath remotePath : Path)
deriving DecidableEq

/-- Remote-service effects of `upload` and `remove`. -/
inductive RemoteAction
  | projectLookup (pid : Path)
  | storageLookup (name : Path)
  | createFile (name : Path) (update : Bool)
  | removeFile (path : Path)
deriving DecidableEq

/-- cli.py lines 207-213: linear search over the storage listing; the first
entry whose normalized path equals the requested path is transferred and the
loop `break`s. -/
def fetch_loop (files : List RemoteFile) (remote_path localPath : Path) : List FetchAction :=
  match files with
  | [] => []
  | f :: rest =>
      if norm_remote_path f.path = remote_path then [FetchAction.write localPath f.path]
      else fetch_loop rest remote_path localPath

/-- cli.py lines 318-320: the same linear search, but every matching entry is
removed and the loop continues to the end of the listing. -/
def remove_loop (files : List RemoteFile) (remote_path : Path) : List RemoteAction :=
  match files with
  | [] => []
  | f :: rest =>
      if norm_remote_path f.path = remote_path then
        RemoteAction.removeFile f.path :: remove_loop rest remote_path
      else remove_loop rest remote_path

/-- The outcome of a `fetch` invocation: normal completion with its local
trace, `sys.exit` with a message and the trace performed before exiting, or a
Python exception. -/
inductive FetchOutcome
  | ok (actions : List FetchAction)
  | exit (msg : Path) (actions : List FetchAction)
  | raised (e : PyErr)
deriving DecidableEq

/-- cli.py lines 176-213: the `fetch` operation.  `exists1` is the local
filesystem's `os.path.exists`.  The conflict check of lines 195-196 happens
after local-path resolution and before any directory creation or write;
`sys.exit(msg)` produces a user-visible message and a non-zero exit status. -/
def fetch_run (localArg : Option Path) (force : Bool) (exists1 : Path → Bool)
    (remote_path : Path) (files : List RemoteFile) : FetchOutcome :=
  match fetch_resolve_local localArg remote_path with
  | Except.error e => FetchOutcome.raised e
  | Except.ok local_path =>
      if exists1 local_path && !force then
        FetchOutcome.exit
          (str "Local file " ++ local_path ++ str " already exists, not overwriting.") []
      else
        let directory := replaceSep (pySplit local_path).1
        let mkActs := if directory = [] then [] else [FetchAction.makedirs directory]
        FetchOutcome.ok (mkActs ++ fetch_loop files remote_path local_path)

/-- The sublist of listing entries whose normalized path equals the requested
remote path. -/
def matching (files : List RemoteFile) (rp : Path) : List RemoteFile :=
  files.filter fun f => decide (norm_remote_path f.path = rp)

/-! ### Claim C3 -/

theorem fetch_loop_eq (files : List RemoteFile) (rp lp : Path) :
    fetch_loop files rp lp
      = ((matching files rp).head?.map fun f => FetchAction.write lp f.path).toList := by
  induction files with
  | nil => rfl
  | cons f rest ih =>
      by_cases h : norm_remote_path f.path = rp
      · simp [fetch_loop, matching, List.filter_cons, h]
      · simpa [fetch_loop, matching, List.filter_cons, h] using ih

theorem remove_loop_eq (files : List RemoteFile) (rp : Path) :
    remove_loop files rp = (matching files rp).map fun f => RemoteAction.removeFile f.path := by
  induction files with
  | nil => rfl
  | cons f rest ih =>
      by_cases h : norm_remote_path f.path = rp
      · simpa [remove_loop, matching, List.filter_cons, h] using ih
      · simpa [remove_loop, matching, List.filter_cons, h] using ih

/-- Claim C3: on a listing with at least two entries whose normalized paths
equal the requested path, `fetch` transfers exactly the first matching entry
(one write, then the loop breaks), while `remove` removes every matching entry
— one removal per match, hence at least two. -/
theorem fetch_first_match_remove_all_matches (files : List RemoteFile) (rp lp : Path)
    (h : 2 ≤ (matching files rp).length) :
    ∃ f rest, matching files rp = f :: rest
      ∧ fetch_loop files rp lp = [FetchAction.write lp f.path]
      ∧ remove_loop files rp = (matching files rp).map (fun g => RemoteAction.removeFile g.path)
      ∧ (fetch_loop files rp lp).length = 1
      ∧ (remove_loop files rp).length = (matching files rp).length
      ∧ 2 ≤ (remove_loop files rp).length := by
  have hne : matching files rp ≠ [] := by
    intro h0
    rw [h0] at h
    simp at h
  obtain ⟨f, rest, hm⟩ := List.exists_cons_of_ne_nil hne
  have hfetch : fetch_loop files rp lp = [FetchAction.write lp f.path] := by
    rw [fetch_loop_eq, hm]
    rfl
  have hremove := remove_loop_eq files rp
  refine ⟨f, rest, hm, hfetch, hremove, by simp [hfetch], by rw [hremove, List.length_map], ?_⟩
  rw [hremove, List.length_map]
  exact h

/-- Witness for claim C3: a listing with entries `"/x"` and `"x"`, both of
which normalize to the requested path `"x"`. -/
theorem fetch_first_match_remove_all_matches_witness :
    2 ≤ (matching [⟨str "/x"⟩, ⟨str "x"⟩] (str "x")).length
    ∧ ∃ f rest, matching [⟨str "/x"⟩, ⟨str "x"⟩] (str "x") = f :: rest
      ∧ fetch_loop [⟨str "/x"⟩, ⟨str "x"⟩] (str "x") (str "out")
          = [FetchAction.write (str "out") f.path]
      ∧ remove_loop [⟨str "/x"⟩, ⟨str "x"⟩] (str "x")
          = (matching [⟨str "/x"⟩, ⟨str "x"⟩] (str "x")).map
              (fun g => RemoteAction.removeFile g.path)
      ∧ (fetch_loop [⟨str "/x"⟩, ⟨str "x"⟩] (str "x") (str "out")).length = 1
      ∧ (remove_loop [⟨str "/x"⟩, ⟨str "x"⟩] (str "x")).length
          = (matching [⟨str "/x"⟩, ⟨str "x"⟩] (str "x")).length
      ∧ 2 ≤ (remove_loop [⟨str "/x"⟩, ⟨str "x"⟩] (str "x")).length :=
  ⟨by decide, fetch_first_match_remove_all_matches [⟨str "/x"⟩, ⟨str "x"⟩] (str "x") (str "out")
    (by decide)⟩

/-! ### Claim C4 -/

/-- Claim C4: if the resolved local destination exists and the force flag is
not set, `fetch` exits with the fixed message and an empty action trace — no
directory is created and no byte is written, so the existing file is
unchanged; with the force flag set, the existence predicate plays no role at
all and the write phase proceeds unconditionally. -/
theorem fetch_conflict_guard_aborts (lp0 : Path) (exists1 : Path → Bool) (rp : Path)
    (files : List RemoteFile) (hex : exists1 (replaceSep lp0) = true) :
    fetch_run (some lp0) false exists1 rp files
      = FetchOutcome.exit
          (str "Local file " ++ replaceSep lp0 ++ str " already exists, not overwriting.") []
    ∧ ∀ exists2 : Path → Bool,
        fetch_run (some lp0) true exists2 rp files
          = FetchOutcome.ok
              ((if replaceSep (pySplit (replaceSep lp0)).1 = [] then []
                else [FetchAction.makedirs (replaceSep (pySplit (replaceSep lp0)).1)])
                ++ fetch_loop files rp (replaceSep lp0)) := by
  constructor
  · simp only [replaceSep_eq] at hex
    simp [fetch_run, fetch_resolve_local, pyReplaceSepOpt, hex]
  · intro exists2
    simp [fetch_run, fetch_resolve_local, pyReplaceSepOpt]

/-- Witness for claim C4 at a concrete existing destination `"f.txt"`. -/
theorem fetch_conflict_guard_aborts_witness :
    (fun p => p == str "f.txt") (replaceSep (str "f.txt")) = true
    ∧ (fetch_run (some (str "f.txt")) false (fun p => p == str "f.txt") (str "x") []
        = FetchOutcome.exit
            (str "Local file " ++ replaceSep (str "f.txt")
              ++ str " already exists, not overwriting.") []
      ∧ ∀ exists2 : Path → Bool,
          fetch_run (some (str "f.txt")) true exists2 (str "x") []
            = FetchOutcome.ok
                ((if replaceSep (pySplit (replaceSep (str "f.txt"))).1 = [] then []
                  else [FetchAction.makedirs (replaceSep (pySplit (replaceSep (str "f.txt"))).1)])
                  ++ fetch_loop [] (str "x") (replaceSep (str "f.txt")))) :=
  ⟨by decide, fetch_conflict_guard_aborts (str "f.txt") (fun p => p == str "f.txt") (str "x") []
    (by decide)⟩

/-! ### Claim C9 -/

/-- Claim C9: with the local path argument absent, `fetch` raises
`AttributeError` at the separator-replacement step (cli.py line 190) before
the `None`-default branch of lines 191-193 can run; and every successfully
resolved local path is the separator-replaced argument, never the remote base
name produced by that (unreachable) fallback. -/
theorem fetch_local_none_raises_before_default (remote_path : Path) :
    fetch_resolve_local none remote_path = Except.error PyErr.attributeErrorNoneReplace
    ∧ (∀ lp0, fetch_resolve_local (some lp0) remote_path = Except.ok (replaceSep lp0))
    ∧ ∀ (force : Bool) (exists1 : Path → Bool) (files : List RemoteFile),
        fetch_run none force exists1 remote_path files
          = FetchOutcome.raised PyErr.attributeErrorNoneReplace :=
  ⟨rfl, fun _ => rfl, fun _ _ _ => rfl⟩

/-! ### The upload operation (cli.py lines 237-297) and remove (lines 300-320) -/

/-- Helper for `pyDeleteAll`: the `fuel` argument only bounds the recursion
depth; `pyDeleteAllAux_fuel_irrelevant` below proves that any fuel of at least
the length of the scanned string computes the same value, so `pyDeleteAll`'s
choice of `s.length` is inert. -/
def pyDeleteAllAux (old : Path) : Nat → Path → Path
  | 0, s => s
  | _ + 1, [] => []
  | n + 1, c :: rest =>
      if old ≠ [] ∧ leadsWith old (c :: rest) = true then
        pyDeleteAllAux old n ((c :: rest).drop old.length)
      else
        c :: pyDeleteAllAux old n rest

/-- Python `s.replace(old, '')` (cli.py line 279): scan left to right; at each
position, a non-overlapping occurrence of `old` is deleted and scanning resumes
after it, otherwise the character is kept.  (For `old = ''` Python interleaves
empty insertions, which for an empty replacement is also the identity.) -/
def pyDeleteAll (s old : Path) : Path := pyDeleteAllAux old s.length s

theorem pyDeleteAllAux_fuel_irrelevant (old : Path) :
    ∀ (n m : Nat) (s : Path), s.length ≤ n → s.length ≤ m →
      pyDeleteAllAux old n s = pyDeleteAllAux old m s := by
  intro n
  induction n with
  | zero =>
      intro m s hn _
      have hs : s = [] := List.eq_nil_of_length_eq_zero (Nat.le_zero.mp hn)
      subst hs
      cases m <;> rfl
  | succ n ih =>
      intro m s hn hm
      cases s with
      | nil => cases m <;> rfl
      | cons c rest =>
          cases m with
          | zero => simp at hm
          | succ m' =>
              have hlen : rest.length + 1 ≤ n + 1 := by simpa using hn
              have hlen' : rest.length + 1 ≤ m' + 1 := by simpa using hm
              simp only [pyDeleteAllAux]
              by_cases hcond : old ≠ [] ∧ leadsWith old (c :: rest) = true
              · rw [if_pos hcond, if_pos hcond]
                have hol : 1 ≤ old.length := by
                  rcases hcond with ⟨h1, _⟩
                  cases old with
                  | nil => exact absurd rfl h1
                  | cons _ _ => simp
                apply ih
                · rw [List.length_drop]
                  simp only [List.length_cons]
                  omega
                · rw [List.length_drop]
                  simp only [List.length_cons]
                  omega
              · rw [if_neg hcond, if_neg hcond]
                exact congrArg (List.cons c) (ih m' rest (by omega) (by omega))

/-- cli.py line 273: `_, dir_name = os.path.split(args.source)` — the local
name of the directory being uploaded; empty exactly when the source argument
ends in a separator. -/
def upload_dir_name (source : Path) : Path := (pySplit source).2

/-- cli.py lines 279-282: the extra subdirectory path of one walk root:
`root.replace(args.source, '')`, separators replaced, one leading slash
stripped. -/
def upload_subdir (source root : Path) : Path :=
  stripOneLeading (replaceSep (pyDeleteAll root source))

/-- cli.py lines 289-290: the remote name of one uploaded file. -/
def upload_name (remote_path dir_name subdir_path fname : Path) : Path :=
  posixJoins remote_path [dir_name, subdir_path, fname]

/-- Terminal errors of `upload`/`remove`: `sys.exit(msg)` or
`raise RuntimeError(msg)`. -/
inductive CliErr
  | exit (msg : Path)
  | runtimeError (msg : Path)
deriving DecidableEq

/-- The remote-service trace of one `upload`/`remove` invocation together with
its terminal error, if any. -/
structure OpResult where
  actions : List RemoteAction
  err : Option CliErr
deriving DecidableEq

/-- cli.py lines 237-297: the `upload` operation.  `walk` models
`os.walk(args.source)` as the ordered list of `(root, files-in-root)` pairs;
`isdir` is `os.path.isdir(args.source)`.  The credentials check of lines
259-261 precedes every remote action. -/
def upload_run (username password : Option Path) (projectId storage remote_path : Path)
    (recursive force : Bool) (source : Path) (isdir : Bool)
    (walk : List (Path × List Path)) : OpResult :=
  if username.isNone || password.isNone then
    { actions := [],
      err := some (CliErr.exit
        (str "To upload a file you need to provide a username and password.")) }
  else if recursive then
    if !isdir then
      { actions := [RemoteAction.projectLookup projectId, RemoteAction.storageLookup storage],
        err := some (CliErr.runtimeError
          (str "Expected source (" ++ source
            ++ str ") to be a directory when using recursive mode.")) }
    else
      { actions := [RemoteAction.projectLookup projectId, RemoteAction.storageLookup storage]
          ++ walk.flatMap (fun rf =>
              rf.2.map fun fname =>
                RemoteAction.createFile
                  (upload_name remote_path (upload_dir_name source)
                    (upload_subdir source rf.1) fname) force),
        err := none }
  else
    { actions := [RemoteAction.projectLookup projectId, RemoteAction.storageLookup storage]
        ++ [RemoteAction.createFile
            (if remote_path = str "." then (pySplit source).2 else remote_path) force],
      err := none }

/-- cli.py lines 300-320: the `remove` operation.  The credentials check of
lines 309-311 precedes every remote action; line 316 replaces separators in
the requested path before the search loop. -/
def remove_run (username password : Option Path) (projectId storage remote_path : Path)
    (files : List RemoteFile) : OpResult :=
  if username.isNone || password.isNone then
    { actions := [],
      err := some (CliErr.exit
        (str "To remove a file you need to provide a username and password.")) }
  else
    { actions := RemoteAction.projectLookup projectId :: RemoteAction.storageLookup storage
        :: remove_loop files (replaceSep remote_path),
      err := none }

/-! ### Claim C8 -/

/-- Claim C8: with a missing username or password, `upload` and `remove` exit
with their fatal messages and an empty remote trace — no project lookup, no
file listing, no transfer. -/
theorem upload_remove_missing_creds_no_remote
    (username password : Option Path) (projectId storage remote_path source : Path)
    (recursive force isdir : Bool) (walk : List (Path × List Path)) (files : List RemoteFile)
    (h : (username.isNone || password.isNone) = true) :
    upload_run username password projectId storage remote_path recursive force source isdir walk
      = { actions := [],
          err := some (CliErr.exit
            (str "To upload a file you need to provide a username and password.")) }
    ∧ remove_run username password projectId storage remote_path files
      = { actions := [],
          err := some (CliErr.exit
            (str "To remove a file you need to provide a username and password.")) } := by
  constructor <;> simp [upload_run, remove_run, h]

/-- Witness for claim C8 with an absent username. -/
theorem upload_remove_missing_creds_no_remote_witness :
    ((none : Option Path).isNone || (some (str "pw")).isNone) = true
    ∧ (upload_run none (some (str "pw")) (str "pid") (str "osfstorage") (str "bar")
          false false (str "foo.txt") false []
        = { actions := [],
            err := some (CliErr.exit
              (str "To upload a file you need to provide a username and password.")) }
      ∧ remove_run none (some (str "pw")) (str "pid") (str "osfstorage") (str "x.txt") []
        = { actions := [],
            err := some (CliErr.exit
              (str "To remove a file you need to provide a username and password.")) }) :=
  ⟨by decide, upload_remove_missing_creds_no_remote none (some (str "pw")) (str "pid")
    (str "osfstorage") (str "x.txt") (str "foo.txt") false false false [] [] (by decide)⟩

/-! ### Claim C7 -/

/-- Claim C7: every remote action of an `upload` invocation is the project
lookup, the storage lookup, or a `create_file` whose `update` flag is exactly
the force flag; in particular no remote existence check occurs and no create
carries any other update flag. -/
theorem upload_update_flag_eq_force
    (username password : Option Path) (projectId storage remote_path source : Path)
    (recursive force isdir : Bool) (walk : List (Path × List Path)) (a : RemoteAction)
    (ha : a ∈ (upload_run username password projectId storage remote_path recursive force
        source isdir walk).actions) :
    a = RemoteAction.projectLookup projectId ∨ a = RemoteAction.storageLookup storage
      ∨ ∃ n, a = RemoteAction.createFile n force := by
  unfold upload_run at ha
  split at ha
  · simp at ha
  · split at ha
    · split at ha
      · simp only [List.mem_cons, List.not_mem_nil, or_false] at ha
        tauto
      · simp only [List.mem_append, List.mem_cons, List.not_mem_nil, or_false,
          List.mem_flatMap, List.mem_map] at ha
        rcases ha with h | ⟨rf, _, fname, _, heq⟩
        · tauto
        · exact Or.inr (Or.inr ⟨_, heq.symm⟩)
    · simp only [List.mem_append, List.mem_cons, List.not_mem_nil, or_false] at ha
      rcases ha with h | h
      · tauto
      · exact Or.inr (Or.inr ⟨_, h⟩)

/-- Witness for claim C7: a concrete single-file upload with the force flag
set; the emitted create carries `update = true`. -/
theorem upload_update_flag_eq_force_witness :
    RemoteAction.createFile (str "bar") true
        ∈ (upload_run (some (str "u")) (some (str "p")) (str "pid") (str "osfstorage")
            (str "bar") false true (str "foo.txt") false []).actions
    ∧ (RemoteAction.createFile (str "bar") true = RemoteAction.projectLookup (str "pid")
        ∨ RemoteAction.createFile (str "bar") true = RemoteAction.storageLookup (str "osfstorage")
        ∨ ∃ n, RemoteAction.createFile (str "bar") true = RemoteAction.createFile n true) :=
  ⟨by decide, upload_update_flag_eq_force (some (str "u")) (some (str "p")) (str "pid")
    (str "osfstorage") (str "bar") (str "foo.txt") false true false []
    (RemoteAction.createFile (str "bar") true) (by decide)⟩

/-! ### Claim C2 -/

/-- Claim C2 (code bug): `subdir_path` is computed by deleting EVERY occurrence
of the source string from the walk root (`root.replace(args.source, '')`), not
just the leading one.  Uploading directory `foo` containing `foo/a.txt` and
`foo/foo/b.txt` to prefix `bar` sends the nested file to `bar/foo/b.txt` —
colliding with the top level — instead of `bar/foo/foo/b.txt` as the
documented destination `prefix/dirName/subdirPath/fileName` requires. -/
theorem upload_subdir_replace_all_collapses :
    (upload_run (some (str "u")) (some (str "p")) (str "pid") (str "osfstorage") (str "bar")
        true false (str "foo") true
        [(str "foo", [str "a.txt"]), (str "foo/foo", [str "b.txt"])]).actions
      = [RemoteAction.projectLookup (str "pid"), RemoteAction.storageLookup (str "osfstorage"),
         RemoteAction.createFile (str "bar/foo/a.txt") false,
         RemoteAction.createFile (str "bar/foo/b.txt") false]
    ∧ upload_subdir (str "foo") (str "foo/foo") = str ""
    ∧ upload_name (str "bar") (upload_dir_name (str "foo"))
        (upload_subdir (str "foo") (str "foo/foo")) (str "b.txt") ≠ str "bar/foo/foo/b.txt" := by
  decide

/-! ### The auth boundary (cli.py lines 22-53 and 82-103) -/

/-- The configuration dictionary built by `config_from_file` (cli.py lines
22-33): the optional `username` and `project` entries of `.osfcli.config`. -/
structure Config where
  username : Option Path
  project : Option Path
deriving DecidableEq

/-- cli.py lines 36-45: overlay the `OSF_USERNAME` and `OSF_PROJECT`
environment variables (when set) on top of the file configuration. -/
def config_from_env (envUsername envProject : Option Path) (config : Config) : Config :=
  let c1 := match envUsername with
    | none => config
    | some u => { config with username := some u }
  match envProject with
  | none => c1
  | some p => { c1 with project := some p }

/-- cli.py lines 48-53: the explicit CLI argument takes precedence over the
merged configuration. -/
def _get_username (argsUsername : Option Path) (config : Config) : Option Path :=
  match argsUsername with
  | none => config.username
  | some u => some u

/-- The observable outcome of a wrapped CLI operation: its return value, or
termination via `sys.exit` with a message. -/
inductive AuthOutcome (α : Type)
  | ok (a : α)
  | exit (msg : String)
deriving DecidableEq

/-- cli.py lines 82-103: the `might_need_auth` decorator.  The wrapped
operation `f` is modelled as indexed by the invocation number, so that "never
retried" is visible: only index 0 is ever evaluated, and the pair's second
component counts the invocations performed.  `Except.error ()` is a raised
`UnauthorizedException`. -/
def might_need_auth {α : Type} (f : Nat → Except Unit α) (argsUsername : Option Path)
    (fileConfig : Config) (envUsername envProject : Option Path) : AuthOutcome α × Nat :=
  match f 0 with
  | Except.ok a => (AuthOutcome.ok a, 1)
  | Except.error _ =>
      match _get_username argsUsername (config_from_env envUsername envProject fileConfig) with
      | none => (AuthOutcome.exit "Please set a username (run `osf -h` for details).", 1)
      | some _ => (AuthOutcome.exit "You are not authorized to access this project.", 1)

/-! ### Claim C6 -/

/-- Claim C6: when the wrapped operation raises an authorization failure, the
wrapper resolves the username with precedence explicit argument, then
environment, then config file; it terminates with exactly the "set a username"
message when no username resolves and exactly the "not authorized" message
otherwise; the operation is invoked exactly once, and the outcome depends only
on the first invocation — it is never retried. -/
theorem might_need_auth_single_shot_messages {α : Type} (f : Nat → Except Unit α)
    (argsUsername : Option Path) (fileConfig : Config) (envUsername envProject : Option Path)
    (h : f 0 = Except.error ()) :
    (might_need_auth f argsUsername fileConfig envUsername envProject).2 = 1
    ∧ _get_username argsUsername (config_from_env envUsername envProject fileConfig)
        = Option.or argsUsername (Option.or envUsername fileConfig.username)
    ∧ (might_need_auth f argsUsername fileConfig envUsername envProject).1
        = AuthOutcome.exit
            (if (Option.or argsUsername (Option.or envUsername fileConfig.username)).isNone
              then "Please set a username (run `osf -h` for details)."
              else "You are not authorized to access this project.")
    ∧ ∀ g : Nat → Except Unit α, g 0 = f 0 →
        might_need_auth g argsUsername fileConfig envUsername envProject
          = might_need_auth f argsUsername fileConfig envUsername envProject := by
  have hres : _get_username argsUsername (config_from_env envUsername envProject fileConfig)
      = Option.or argsUsername (Option.or envUsername fileConfig.username) := by
    cases argsUsername <;> cases envUsername <;> cases envProject <;>
      simp [_get_username, config_from_env, Option.or]
  refine ⟨?_, hres, ?_, ?_⟩
  · unfold might_need_auth
    rw [h]
    cases hu : _get_username argsUsername (config_from_env envUsername envProject fileConfig) <;>
      simp [hu]
  · unfold might_need_auth
    rw [h, hres]
    cases hu : Option.or argsUsername (Option.or envUsername fileConfig.username) <;> simp [hu]
  · intro g hg
    unfold might_need_auth
    rw [hg]

/-- Witness for claim C6: an authorization failure with no resolvable
username yields exactly the "set a username" message after one invocation. -/
theorem might_need_auth_single_shot_messages_witness :
    (fun _ : Nat => (Except.error () : Except Unit Unit)) 0 = Except.error ()
    ∧ ((might_need_auth (fun _ : Nat => (Except.error () : Except Unit Unit)) none
          ⟨none, none⟩ none none).2 = 1
      ∧ _get_username none (config_from_env none none ⟨none, none⟩)
          = Option.or none (Option.or none (Config.mk none none).username)
      ∧ (might_need_auth (fun _ : Nat => (Except.error () : Except Unit Unit)) none
            ⟨none, none⟩ none none).1
          = AuthOutcome.exit
              (if (Option.or none (Option.or none (Config.mk none none).username)).isNone
                then "Please set a username (run `osf -h` for details)."
                else "You are not authorized to access this project.")
      ∧ ∀ g : Nat → Except Unit Unit,
          g 0 = (fun _ : Nat => (Except.error () : Except Unit Unit)) 0 →
            might_need_auth g none ⟨none, none⟩ none none
              = might_need_auth (fun _ : Nat => (Except.error () : Except Unit Unit)) none
                  ⟨none, none⟩ none none) :=
  ⟨rfl, might_need_auth_single_shot_messages (fun _ => Except.error ()) none ⟨none, none⟩
    none none rfl⟩

end Osf
